import Mathlib

/-!
Verification of the HDRI / render-mode core of the 3D model viewer.

The definitions below are a shallow embedding of the JavaScript source:
`analyzeHDRIBrightestPoint`, `equirectUVToDirection`, `updateHDRISettings`,
`generateRotatedEnvironment`, `updateModelTransform`, `setAnimationEnabled`,
`animate`, `updateSunLightPosition`, `loadModel` / `clearModel` /
`autoScaleModel`, and the path-tracing render coordinator (`render`,
orbit-control handlers, `enablePathTracing` / `disablePathTracing`).

Pixel data (Float32Array contents) is modelled with rational numbers;
geometric quantities (angles, directions, matrices) with real numbers.
JavaScript division, which produces Infinity / NaN instead of raising,
is modelled by the `JsNum` type.
-/

namespace Viewer

/-! ## Equirectangular sampler (`analyzeHDRIBrightestPoint`) -/

/-- Fixed analysis width: `const sampleWidth = 512`. -/
def sampleWidth : ℕ := 512

/-- Fixed analysis height: `const sampleHeight = 256`. -/
def sampleHeight : ℕ := 256

/-- Rec. 709 luminance: `0.2126 * r + 0.7152 * g + 0.0722 * b`. -/
def luminance (r g b : ℚ) : ℚ :=
  2126 / 10000 * r + 7152 / 10000 * g + 722 / 10000 * b

/-- Luminance of the texel at row `yx.1`, column `yx.2` of the analysis
buffer: `idx = (y * sampleWidth + x) * 4` and the RGB components are read
at `idx`, `idx+1`, `idx+2` of the flat RGBA buffer. -/
def texLum (buf : ℕ → ℚ) (yx : ℕ × ℕ) : ℚ :=
  let idx := (yx.1 * sampleWidth + yx.2) * 4
  luminance (buf idx) (buf (idx + 1)) (buf (idx + 2))

/-- UV assigned to a texel when it becomes the brightest candidate:
`brightestU = x / sampleWidth; brightestV = 1.0 - (y / sampleHeight)`. -/
def texUV (yx : ℕ × ℕ) : ℚ × ℚ :=
  ((yx.2 : ℚ) / (sampleWidth : ℚ), 1 - (yx.1 : ℚ) / (sampleHeight : ℚ))

/-- The scan order of the double loop
`for (y = 0; y < sampleHeight; y++) for (x = 0; x < sampleWidth; x++)`:
row-major, rows (increasing `y`) outermost. -/
def scanList : List (ℕ × ℕ) :=
  (List.range sampleHeight).flatMap fun y => (List.range sampleWidth).map fun x => (y, x)

/-- One iteration of the brightest-pixel loop: the candidate is replaced
exactly when `luminance > maxLuminance` (strict). The accumulator is
`(maxLuminance, brightestU, brightestV)`. -/
def brightStep (buf : ℕ → ℚ) (st : ℚ × ℚ × ℚ) (yx : ℕ × ℕ) : ℚ × ℚ × ℚ :=
  if st.1 < texLum buf yx then (texLum buf yx, texUV yx) else st

/-- The brightest-pixel scan with its initial accumulator
`maxLuminance = 0, brightestU = 0.5, brightestV = 0.5`. -/
def findBrightestUV (buf : ℕ → ℚ) : ℚ × ℚ × ℚ :=
  scanList.foldl (brightStep buf) (0, 1/2, 1/2)

/-- Running maximum of texel luminances, seeded with the initial
`maxLuminance`; this is the value the loop's `maxLuminance` variable holds
at the end. -/
def runMaxLum (buf : ℕ → ℚ) (l : List (ℕ × ℕ)) (m : ℚ) : ℚ :=
  l.foldl (fun a e => max a (texLum buf e)) m

/-- The maximum luminance the full scan reaches (seed 0). -/
def maxLumOf (buf : ℕ → ℚ) : ℚ := runMaxLum buf scanList 0

/-- Models `Vector3.normalize`: divide by the length, or by 1 when the length is
zero (`divideScalar(this.length() || 1)`). -/
noncomputable def v3normalize (p : ℝ × ℝ × ℝ) : ℝ × ℝ × ℝ :=
  let l := Real.sqrt (p.1 ^ 2 + p.2.1 ^ 2 + p.2.2 ^ 2)
  let d := if l = 0 then 1 else l
  (p.1 / d, p.2.1 / d, p.2.2 / d)

/-- Models `equirectUVToDirection(u, v)`:
`phi = (u - 0.5) * Math.PI * 2; theta = (v - 0.5) * Math.PI;`
`(cos theta * sin phi, sin theta, cos theta * cos phi)` normalized. -/
noncomputable def equirectUVToDirection (u v : ℝ) : ℝ × ℝ × ℝ :=
  let phi := (u - 1/2) * Real.pi * 2
  let theta := (v - 1/2) * Real.pi
  v3normalize (Real.cos theta * Real.sin phi, Real.sin theta,
    Real.cos theta * Real.cos phi)

/-- Models `analyzeHDRIBrightestPoint`, applied to the 512x256 RGBA analysis
buffer read back from the render target: scan for the brightest texel,
then convert its UV to a direction. -/
noncomputable def analyzeHDRIBrightestPoint (buf : ℕ → ℚ) : ℝ × ℝ × ℝ :=
  let uv := findBrightestUV buf
  equirectUVToDirection (uv.2.1 : ℝ) (uv.2.2 : ℝ)

/-! ## JavaScript numbers for the non-raising division in `autoScaleModel` -/

/-- A JavaScript number as far as this core needs it: a finite value,
one of the two infinities, or NaN. JS arithmetic never raises. -/
inductive JsNum where
  | fin (q : ℝ)
  | inf
  | ninf
  | nan

/-- JavaScript division. The case the source exercises is
`finite / finite`; division by zero yields an infinity (or NaN for 0/0)
instead of raising. -/
noncomputable def jsDiv : JsNum → JsNum → JsNum
  | .fin a, .fin b =>
      if b = 0 then (if a = 0 then .nan else if 0 < a then .inf else .ninf)
      else .fin (a / b)
  | .fin _, .inf => .fin 0
  | .fin _, .ninf => .fin 0
  | .inf, .fin b => if b < 0 then .ninf else .inf
  | .ninf, .fin b => if b < 0 then .inf else .ninf
  | _, _ => .nan

/-! ## Rotation matrices and Euler extraction (three.js `Matrix4` / `Euler`) -/

/-- Models `Matrix4.makeRotationX` (upper 3x3 block). -/
noncomputable def makeRotationX (t : ℝ) : Matrix (Fin 3) (Fin 3) ℝ :=
  !![1, 0, 0; 0, Real.cos t, -Real.sin t; 0, Real.sin t, Real.cos t]

/-- Models `Matrix4.makeRotationY` (upper 3x3 block). -/
noncomputable def makeRotationY (t : ℝ) : Matrix (Fin 3) (Fin 3) ℝ :=
  !![Real.cos t, 0, Real.sin t; 0, 1, 0; -Real.sin t, 0, Real.cos t]

/-- Models `Matrix4.makeRotationZ` (upper 3x3 block). -/
noncomputable def makeRotationZ (t : ℝ) : Matrix (Fin 3) (Fin 3) ℝ :=
  !![Real.cos t, -Real.sin t, 0; Real.sin t, Real.cos t, 0; 0, 0, 1]

/-- Models `Math.atan2` on real numbers. -/
noncomputable def atan2 (y x : ℝ) : ℝ :=
  if 0 < x then Real.arctan (y / x)
  else if x < 0 then
    (if 0 ≤ y then Real.arctan (y / x) + Real.pi else Real.arctan (y / x) - Real.pi)
  else
    (if 0 < y then Real.pi / 2 else if y < 0 then -(Real.pi / 2) else 0)

/-- Models `Euler.setFromRotationMatrix` for the default XYZ order:
`y = asin(clamp(m13, -1, 1))`, then either
`x = atan2(-m23, m33), z = atan2(-m12, m11)` (when `|m13| < 0.9999999`)
or `x = atan2(m32, m22), z = 0`. -/
noncomputable def eulerSetFromRotationMatrixXYZ (m : Matrix (Fin 3) (Fin 3) ℝ) :
    ℝ × ℝ × ℝ :=
  let m13 := m 0 2
  let y := Real.arcsin (max (-1) (min 1 m13))
  if |m13| < 9999999 / 10000000 then
    (atan2 (-(m 1 2)) (m 2 2), y, atan2 (-(m 0 1)) (m 0 0))
  else
    (atan2 (m 2 1) (m 1 1), y, 0)

/-- Euler XYZ angles realized as a rotation matrix (three.js XYZ order,
`R = Rx * Ry * Rz`); used for the composed world-axis rotation of
`rotateOnWorldAxis`, whose quaternion premultiplication corresponds to
left multiplication of rotation matrices. -/
noncomputable def eulerXYZMatrix (e : ℝ × ℝ × ℝ) : Matrix (Fin 3) (Fin 3) ℝ :=
  makeRotationX e.1 * makeRotationY e.2.1 * makeRotationZ e.2.2

/-- Models `Object3D.rotateOnWorldAxis(xAxis, angle)` acting on the stored Euler
angles. -/
noncomputable def rotateOnWorldAxisX (e : ℝ × ℝ × ℝ) (angle : ℝ) : ℝ × ℝ × ℝ :=
  eulerSetFromRotationMatrixXYZ (makeRotationX angle * eulerXYZMatrix e)

/-- Models `Object3D.rotateOnWorldAxis(yAxis, angle)` acting on the stored Euler
angles. -/
noncomputable def rotateOnWorldAxisY (e : ℝ × ℝ × ℝ) (angle : ℝ) : ℝ × ℝ × ℝ :=
  eulerSetFromRotationMatrixXYZ (makeRotationY angle * eulerXYZMatrix e)

/-- Models `Object3D.rotateOnWorldAxis(zAxis, angle)` acting on the stored Euler
angles. -/
noncomputable def rotateOnWorldAxisZ (e : ℝ × ℝ × ℝ) (angle : ℝ) : ℝ × ℝ × ℝ :=
  eulerSetFromRotationMatrixXYZ (makeRotationZ angle * eulerXYZMatrix e)

/-! ## Configuration constants (`ViewerConfig`) -/

/-- Models `ViewerConfig.model.targetSize = 2`. -/
noncomputable def targetSize : ℝ := 2

/-- Models `this.interactionDelay = 300` (ms before path tracing resumes). -/
def interactionDelay : ℕ := 300

/-- Models `ViewerConfig.animation.turntableRotationSpeed = 0.01`. -/
noncomputable def turntableRotationSpeed : ℝ := 1 / 100

/-! ## Viewer state -/

/-- The model container `Object3D` (`this.modelContainer`): scale,
position and Euler rotation. The scale components are JS numbers because
`autoScaleModel` can write a non-finite value into them. -/
structure Container where
  scale : JsNum × JsNum × JsNum
  position : ℝ × ℝ × ℝ
  rotation : ℝ × ℝ × ℝ

/-- A loaded model as this core observes it: its bounding-box center and
size (`Box3.setFromObject` / `getCenter` / `getSize`; an empty box reports
size `(0,0,0)`), its position (written by `centerModel`), and whether
shadows were enabled on its meshes. -/
structure Model where
  bboxCenter : ℝ × ℝ × ℝ
  bboxSize : ℝ × ℝ × ℝ
  position : ℝ × ℝ × ℝ
  shadows : Bool

/-- Models `this.animationMode`. -/
inductive AnimMode where
  | turntable
  | sine
deriving DecidableEq

/-- The fields of the viewer class that the verified core reads or
writes. `pathTracerPresent` models `this.pathTracer !== null`;
`interactionTimeout` holds the id of the pending settle timer, and
`timerId` is a counter that makes each `setTimeout` observable as a fresh
timer. `pmremCount` counts PMREM environment-map generations. -/
structure ViewerState where
  hdriIntensity : ℝ
  hdriRotation : ℝ
  hdriBackgroundVisible : Bool
  originalHDRITexture : Option ℕ
  currentHDRI : Option (ℕ × ℕ)
  sceneEnvironment : Option (ℕ × ℕ)
  envRotationEuler : ℝ × ℝ × ℝ
  bgRotationEuler : ℝ × ℝ × ℝ
  pmremCount : ℕ
  toneMappingACES : Bool
  toneMappingExposure : ℝ
  materialsEnvIntensity : ℝ
  sunAzimuth : ℝ
  sunElevation : ℝ
  sunIntensity : ℝ
  sunEnabled : Bool
  shadowSoftness : ℝ
  shadowIntensity : ℝ
  sunLightPresent : Bool
  sunLightPos : ℝ × ℝ × ℝ
  sunLightVisible : Bool
  sunLightIntensity : ℝ
  sunLightShadowRadius : ℝ
  sunLightShadowBias : ℝ
  currentModel : Option Model
  modelContainer : Option Container
  disposedModels : ℕ
  animationEnabled : Bool
  animationMode : AnimMode
  turntableSpeedX : ℝ
  turntableSpeedY : ℝ
  turntableSpeedZ : ℝ
  sineAmplitudeX : ℝ
  sineAmplitudeY : ℝ
  sineAmplitudeZ : ℝ
  sineFrequencyX : ℝ
  sineFrequencyY : ℝ
  sineFrequencyZ : ℝ
  sineTime : ℝ
  rotationBeforeAnimation : Option (ℝ × ℝ × ℝ)
  pathTracerPresent : Bool
  pathTracingEnabled : Bool
  ptSamples : ℕ
  isInteracting : Bool
  interactionTimeout : Option ℕ
  timerId : ℕ

/-! ## Render-mode coordinator primitives -/

/-- The shared interaction block that ends every content-changing
mutation while path tracing is on:
`if (this.pathTracingEnabled && this.pathTracer) { this.isInteracting = true;`
`if (this.interactionTimeout) clearTimeout(...); this.interactionTimeout = setTimeout(...) }`.
A `setTimeout` is modelled as a fresh timer id, so cancel-and-rearm is
observable. -/
def triggerInteraction (s : ViewerState) : ViewerState :=
  if s.pathTracingEnabled && s.pathTracerPresent then
    { s with isInteracting := true,
             interactionTimeout := some (s.timerId + 1),
             timerId := s.timerId + 1 }
  else s

/-- Which renderer drew the frame. -/
inductive RenderPath where
  | progressive
  | rasterized
deriving DecidableEq

/-- Models `render()`: path tracing executes one sample only under
`this.pathTracingEnabled && this.pathTracer && !this.isInteracting`;
the `catch` around `renderSample` falls back to the rasterizer
(`sampleThrows`), and every other case rasterizes. -/
def render (s : ViewerState) (sampleThrows : Bool) : ViewerState × RenderPath :=
  if s.pathTracingEnabled && s.pathTracerPresent && !s.isInteracting then
    if sampleThrows then (s, .rasterized)
    else ({ s with ptSamples := s.ptSamples + 1 }, .progressive)
  else (s, .rasterized)

/-- The orbit-controls `start` listener: enter interaction and cancel any
pending settle timer (it is rearmed only on `end`). -/
def orbitStartHandler (s : ViewerState) : ViewerState :=
  if s.pathTracingEnabled && s.pathTracerPresent then
    { s with isInteracting := true, interactionTimeout := none }
  else s

/-- The orbit-controls `end` listener: arm a fresh settle timer. -/
def orbitEndHandler (s : ViewerState) : ViewerState :=
  if s.pathTracingEnabled && s.pathTracerPresent then
    { s with interactionTimeout := some (s.timerId + 1),
             timerId := s.timerId + 1 }
  else s

/-- The settle-timer callback (if still pending): leave interaction mode
and hand the up-to-date scene to the path tracer (`setScene` /
`updateEnvironment`), which restarts accumulation. -/
def settleTimerFire (s : ViewerState) : ViewerState :=
  if s.interactionTimeout.isSome then
    { s with isInteracting := false, interactionTimeout := none, ptSamples := 0 }
  else s

/-- Models `enablePathTracing()`: fails (returns false) when the WebGL2
capability check fails or the path tracer cannot be constructed; only on
success does `pathTracingEnabled` become true. -/
def enablePathTracing (s : ViewerState) (capabilityOk createOk : Bool) :
    ViewerState × Bool :=
  if !capabilityOk then (s, false)
  else
    let s1 := if s.pathTracerPresent || createOk then
                { s with pathTracerPresent := true } else s
    if s1.pathTracerPresent then ({ s1 with pathTracingEnabled := true }, true)
    else (s1, false)

/-- Models `disablePathTracing()`. -/
def disablePathTracing (s : ViewerState) : ViewerState :=
  { s with pathTracingEnabled := false }

/-! ## Environment operations -/

/-- Models `generateRotatedEnvironment(texture, rotationRadians)`: dispose the
previous PMREM map, build a fresh one (a new generation id) from the
given equirectangular texture, install it as `scene.environment`, set the
environment/background rotation Eulers, and refresh background tone
mapping and material `envMapIntensity` (`updateCanvasBackground` /
`applyEnvironmentToModel`; the non-HDRI background branches are DOM
compositing, outside the verified core). -/
noncomputable def generateRotatedEnvironment (s : ViewerState) (texture : ℕ)
    (rotationRadians : ℝ) : ViewerState :=
  let genId := s.pmremCount + 1
  let s1 := { s with pmremCount := genId,
                     currentHDRI := some (genId, texture),
                     sceneEnvironment := some (genId, texture),
                     envRotationEuler := (0, rotationRadians, 0),
                     bgRotationEuler := (0, rotationRadians, 0) }
  let s2 := if s1.hdriBackgroundVisible then
              { s1 with toneMappingACES := true,
                        toneMappingExposure := s1.hdriIntensity }
            else s1
  if s2.currentModel.isSome then
    { s2 with materialsEnvIntensity := s2.hdriIntensity }
  else s2

/-- The first step of `updateHDRISettings`: write the live
environment/background rotation Eulers from the stored `hdriRotation`
(`scene.environmentRotation.set(0, rotationRadians, 0)` and the
background analogue). -/
noncomputable def applyHDRIRotationEulers (s : ViewerState) : ViewerState :=
  { s with envRotationEuler := (0, s.hdriRotation * Real.pi / 180, 0),
           bgRotationEuler := (0, s.hdriRotation * Real.pi / 180, 0) }

/-- The conditional regeneration step of `updateHDRISettings`:
`if (this.originalHDRITexture && forceRegenerate) generateRotatedEnvironment(...)`. -/
noncomputable def regenerateIfForced (s : ViewerState) (forceRegenerate : Bool) :
    ViewerState :=
  if forceRegenerate then
    s.originalHDRITexture.elim s
      (fun t => generateRotatedEnvironment s t (s.hdriRotation * Real.pi / 180))
  else s

/-- The tone-mapping step of `updateHDRISettings`: when the HDRI backdrop
is visible, drive exposure from the HDRI intensity. -/
noncomputable def applyBackgroundToneMapping (s : ViewerState) : ViewerState :=
  if s.hdriBackgroundVisible then
    { s with toneMappingACES := true, toneMappingExposure := s.hdriIntensity }
  else s

/-- The material traversal of `updateHDRISettings`: push `envMapIntensity`
to every mesh material in the scene. -/
noncomputable def applyMaterialsEnvIntensity (s : ViewerState) : ViewerState :=
  { s with materialsEnvIntensity := s.hdriIntensity }

/-- Models `updateHDRISettings(forceRegenerate = false)`: always write the live
environment/background rotation Eulers from `hdriRotation`; regenerate
the PMREM map only under `originalHDRITexture && forceRegenerate`; update
tone mapping when the HDRI backdrop is visible; push `envMapIntensity` to
all mesh materials; finally run the path-tracing interaction block. -/
noncomputable def updateHDRISettings (s : ViewerState) (forceRegenerate : Bool) :
    ViewerState :=
  triggerInteraction
    (applyMaterialsEnvIntensity
      (applyBackgroundToneMapping
        (regenerateIfForced (applyHDRIRotationEulers s) forceRegenerate)))

/-- The HDRI rotation slider handler (UI layer): store the new degrees
and apply the cheap live update (`viewer.hdriRotation = value;`
`viewer.updateHDRISettings(false)`); the debounced commit later calls
`updateHDRISettings(true)`. -/
noncomputable def setEnvironmentRotation (s : ViewerState) (deg : ℝ) : ViewerState :=
  updateHDRISettings { s with hdriRotation := deg } false

/-- Models `loadHDRI` (RGBE loader callbacks): on success store the source
texture, regenerate the environment at the current rotation and reset any
active path tracing; the error callback only logs, leaving the state
untouched. -/
noncomputable def loadHDRI (s : ViewerState) (texture : ℕ) (ok : Bool) : ViewerState :=
  if ok then
    let s1 := { s with originalHDRITexture := some texture }
    let s2 := generateRotatedEnvironment s1 texture (s1.hdriRotation * Real.pi / 180)
    if s2.pathTracingEnabled && s2.pathTracerPresent then
      { s2 with ptSamples := 0 }
    else s2
  else s

/-! ## Sun light -/

/-- Models `updateSunLightPosition()` (azimuth/elevation variant): place the
light at `direction * distance` with `distance = ViewerConfig.lighting.sunDistance = 20`,
copy intensity/visibility/shadow parameters onto the light, then run the
path-tracing interaction block. Early-returns when no sun light exists. -/
noncomputable def updateSunLightPosition (s : ViewerState) : ViewerState :=
  if s.sunLightPresent then
    let azimuthRad := s.sunAzimuth * Real.pi / 180
    let elevationRad := s.sunElevation * Real.pi / 180
    let x := Real.cos elevationRad * Real.sin azimuthRad
    let y := Real.sin elevationRad
    let z := Real.cos elevationRad * Real.cos azimuthRad
    let distance : ℝ := 20
    let s1 := { s with sunLightPos := (x * distance, y * distance, z * distance),
                       sunLightIntensity := s.sunIntensity,
                       sunLightVisible := s.sunEnabled,
                       sunLightShadowRadius := s.shadowSoftness,
                       sunLightShadowBias := -(1/10000) * s.shadowIntensity }
    triggerInteraction s1
  else s

/-! ## Transforms -/

/-- Models `updateModelTransform(scale, position, rotation)`: early return
without a container; otherwise set a uniform scale, the position with `z`
forced to 0, and a rotation extracted from the matrix rebuilt from
scratch as `Y * X * Z` of the degree arguments; then run the interaction
block. The new container never reads the old one. -/
noncomputable def updateModelTransform (s : ViewerState) (scale : ℝ)
    (position : ℝ × ℝ) (rotation : ℝ × ℝ × ℝ) : ViewerState :=
  if s.modelContainer.isSome then
    let radX := rotation.1 * Real.pi / 180
    let radY := rotation.2.1 * Real.pi / 180
    let radZ := rotation.2.2 * Real.pi / 180
    let rotMatrix := makeRotationY radY * makeRotationX radX * makeRotationZ radZ
    let c1 : Container := { scale := (.fin scale, .fin scale, .fin scale),
                            position := (position.1, position.2, 0),
                            rotation := eulerSetFromRotationMatrixXYZ rotMatrix }
    triggerInteraction { s with modelContainer := some c1 }
  else s

/-! ## Animation -/

/-- Models `setAnimationEnabled(enabled)`: enabling from the disabled state
snapshots the container rotation and resets the sine clock; disabling
from the enabled state writes the snapshot back and drops it; all other
calls only (re)store the flag. -/
def setAnimationEnabled (s : ViewerState) (enabled : Bool) : ViewerState :=
  let s1 :=
    if enabled && !s.animationEnabled then
      s.modelContainer.elim s
        (fun c => { s with rotationBeforeAnimation := some c.rotation, sineTime := 0 })
    else if !enabled && s.animationEnabled then
      s.modelContainer.elim s (fun c =>
        s.rotationBeforeAnimation.elim s (fun r =>
          { s with modelContainer := some { c with rotation := r },
                   rotationBeforeAnimation := none }))
    else s
  { s1 with animationEnabled := enabled }

/-- Models `setAnimationMode(mode)`: stop if running, switch mode, reset the
sine clock, restart if it was running. -/
def setAnimationMode (s : ViewerState) (mode : AnimMode) : ViewerState :=
  let wasEnabled := s.animationEnabled
  let s1 := if wasEnabled then setAnimationEnabled s false else s
  let s2 := { s1 with animationMode := mode, sineTime := 0 }
  if wasEnabled then setAnimationEnabled s2 true else s2

/-- The animation part of one `animate()` tick: returns the updated state
and the `sceneChanged` flag. Runs only under
`animationEnabled && currentModel && rotationBeforeAnimation`. Turntable
applies `rotateOnWorldAxis` per axis with nonzero speed; sine advances
the clock by 1/60 and writes snapshot + offset per axis. -/
noncomputable def animStep (s : ViewerState) : ViewerState × Bool :=
  if s.animationEnabled && s.currentModel.isSome && s.rotationBeforeAnimation.isSome then
    s.modelContainer.elim (s, false) (fun c =>
      s.rotationBeforeAnimation.elim (s, false) (fun r0 =>
        if s.animationMode = AnimMode.turntable then
          let e0 := c.rotation
          let st1 := if s.turntableSpeedX ≠ 0 then
              (rotateOnWorldAxisX e0 (turntableRotationSpeed * s.turntableSpeedX), true)
            else (e0, false)
          let st2 := if s.turntableSpeedY ≠ 0 then
              (rotateOnWorldAxisY st1.1 (turntableRotationSpeed * s.turntableSpeedY), true)
            else st1
          let st3 := if s.turntableSpeedZ ≠ 0 then
              (rotateOnWorldAxisZ st2.1 (turntableRotationSpeed * s.turntableSpeedZ), true)
            else st2
          ({ s with modelContainer := some { c with rotation := st3.1 } }, st3.2)
        else
          let t := s.sineTime + 1/60
          let rotX := r0.1 +
            Real.sin (t * s.sineFrequencyX * Real.pi * 2) * s.sineAmplitudeX * Real.pi / 180
          let rotY := r0.2.1 +
            Real.sin (t * s.sineFrequencyY * Real.pi * 2) * s.sineAmplitudeY * Real.pi / 180
          let rotZ := r0.2.2 +
            Real.sin (t * s.sineFrequencyZ * Real.pi * 2) * s.sineAmplitudeZ * Real.pi / 180
          ({ s with sineTime := t,
                    modelContainer := some { c with rotation := (rotX, rotY, rotZ) } }, true)))
  else (s, false)

/-- One `animate()` tick without the final `render()` call: the animation
step, then the interaction block when the scene changed while path
tracing is active. -/
noncomputable def animate (s : ViewerState) : ViewerState :=
  let st := animStep s
  if st.1.pathTracingEnabled && st.1.pathTracerPresent && st.2 then
    triggerInteraction st.1
  else st.1

/-! ## Model loading -/

/-- Models `clearModel()`: remove and dispose the current model, if any. -/
def clearModel (s : ViewerState) : ViewerState :=
  if s.currentModel.isSome then
    { s with currentModel := none, disposedModels := s.disposedModels + 1 }
  else s

/-- Models `centerModel()`: move the model so its bounding-box center sits at
the origin. -/
def centerModel (s : ViewerState) : ViewerState :=
  s.currentModel.elim s (fun m =>
    { s with currentModel := some { m with
        position := (-m.bboxCenter.1, -m.bboxCenter.2.1, -m.bboxCenter.2.2) } })

/-- Models `autoScaleModel()`: `maxDim = Math.max(size.x, size.y, size.z)`;
`scale = ViewerConfig.model.targetSize / maxDim` (JS division — no guard
against `maxDim = 0`); `modelContainer.scale.setScalar(scale)`. -/
noncomputable def autoScaleModel (s : ViewerState) : ViewerState :=
  s.currentModel.elim s (fun m =>
    let maxDim := max m.bboxSize.1 (max m.bboxSize.2.1 m.bboxSize.2.2)
    let scale := jsDiv (.fin targetSize) (.fin maxDim)
    s.modelContainer.elim s (fun c =>
      { s with modelContainer := some { c with scale := (scale, scale, scale) } }))

/-- Models `enableModelShadows()`: mark the model's meshes as shadow
casters/receivers. -/
def enableModelShadows (s : ViewerState) : ViewerState :=
  s.currentModel.elim s (fun m =>
    { s with currentModel := some { m with shadows := true } })

/-- Models `applyEnvironmentToModel()`: push the HDRI intensity to the loaded
model's materials (no-op without a model). -/
def applyEnvironmentToModel (s : ViewerState) : ViewerState :=
  if s.currentModel.isSome then
    { s with materialsEnvIntensity := s.hdriIntensity }
  else s

/-- Models `processLoadedModel()`: center, auto-scale, enable shadows and apply
the environment (the `ViewerConfig.model` flags are all true). -/
noncomputable def processLoadedModel (s : ViewerState) : ViewerState :=
  if s.currentModel.isSome then
    applyEnvironmentToModel (enableModelShadows (autoScaleModel (centerModel s)))
  else s

/-- Upload file kinds as `loadModel` dispatches on the extension. -/
inductive FileKind where
  | glb
  | gltf
  | fbx
  | other
deriving DecidableEq

/-- Models `loadModel(file)` together with the loader callbacks: `clearModel()`
runs first, unconditionally; an unsupported extension only alerts; a
loader error (`outcome = none`) only logs and alerts; on success the
loaded scene becomes `currentModel` and is processed. -/
noncomputable def loadModel (s : ViewerState) (kind : FileKind)
    (outcome : Option Model) : ViewerState :=
  let s1 := clearModel s
  if kind = FileKind.other then s1
  else outcome.elim s1 (fun m => processLoadedModel { s1 with currentModel := some m })

/-! ## Initial state and reachability -/

/-- The model container created by `setupScene` (unit scale at the
origin). -/
noncomputable def defaultContainer : Container :=
  { scale := (.fin 1, .fin 1, .fin 1), position := (0, 0, 0), rotation := (0, 0, 0) }

/-- The viewer state right after the constructor and `init()` ran
(`ViewerConfig` defaults; the scene, model container and sun light
exist; no model, HDRI or path tracer yet). -/
noncomputable def initialViewerState : ViewerState where
  hdriIntensity := 1
  hdriRotation := 0
  hdriBackgroundVisible := false
  originalHDRITexture := none
  currentHDRI := none
  sceneEnvironment := none
  envRotationEuler := (0, 0, 0)
  bgRotationEuler := (0, 0, 0)
  pmremCount := 0
  toneMappingACES := false
  toneMappingExposure := 1
  materialsEnvIntensity := 1
  sunAzimuth := 180
  sunElevation := 45
  sunIntensity := 2
  sunEnabled := true
  shadowSoftness := 4
  shadowIntensity := 1/2
  sunLightPresent := true
  sunLightPos := (0, 0, 0)
  sunLightVisible := true
  sunLightIntensity := 2
  sunLightShadowRadius := 4
  sunLightShadowBias := -(1/10000)
  currentModel := none
  modelContainer := some defaultContainer
  disposedModels := 0
  animationEnabled := false
  animationMode := .turntable
  turntableSpeedX := 0
  turntableSpeedY := 1
  turntableSpeedZ := 0
  sineAmplitudeX := 0
  sineAmplitudeY := 0
  sineAmplitudeZ := 0
  sineFrequencyX := 1
  sineFrequencyY := 1
  sineFrequencyZ := 1
  sineTime := 0
  rotationBeforeAnimation := none
  pathTracerPresent := false
  pathTracingEnabled := false
  ptSamples := 0
  isInteracting := false
  interactionTimeout := none
  timerId := 0

/-- The externally triggered events of the core (UI events, loader
callbacks, timers, render ticks). -/
inductive Op where
  | transformEdit (scale : ℝ) (position : ℝ × ℝ) (rotation : ℝ × ℝ × ℝ)
  | sunEdit
  | envEdit (forceRegenerate : Bool)
  | rotationSlider (deg : ℝ)
  | orbitStart
  | orbitEnd
  | animTick (sampleThrows : Bool)
  | animEnable (b : Bool)
  | animModeSwitch (m : AnimMode)
  | enablePT (capabilityOk createOk : Bool)
  | disablePT
  | settleFire
  | renderTick (sampleThrows : Bool)
  | modelLoad (kind : FileKind) (outcome : Option Model)
  | hdriLoad (texture : ℕ) (ok : Bool)
  | setSunParams (azimuth elevation intensity softness shadowAmount : ℝ)
      (enabled : Bool)
  | setHDRIParams (intensity rotationDeg : ℝ) (bgVisible : Bool)
  | setTurntableSpeeds (sx sy sz : ℝ)

/-- Event dispatch: how each external event transforms the state (the
`set...Params` events are the plain field writes the sliders perform
before calling the update methods). -/
noncomputable def applyOp (s : ViewerState) : Op → ViewerState
  | .transformEdit a p r => updateModelTransform s a p r
  | .sunEdit => updateSunLightPosition s
  | .envEdit f => updateHDRISettings s f
  | .rotationSlider d => setEnvironmentRotation s d
  | .orbitStart => orbitStartHandler s
  | .orbitEnd => orbitEndHandler s
  | .animTick th => (render (animate s) th).1
  | .animEnable b => setAnimationEnabled s b
  | .animModeSwitch m => setAnimationMode s m
  | .enablePT cap cr => (enablePathTracing s cap cr).1
  | .disablePT => disablePathTracing s
  | .settleFire => settleTimerFire s
  | .renderTick th => (render s th).1
  | .modelLoad k o => loadModel s k o
  | .hdriLoad t ok => loadHDRI s t ok
  | .setSunParams az el i so sh en =>
      { s with sunAzimuth := az, sunElevation := el, sunIntensity := i,
               shadowSoftness := so, shadowIntensity := sh, sunEnabled := en }
  | .setHDRIParams i r bg =>
      { s with hdriIntensity := i, hdriRotation := r, hdriBackgroundVisible := bg }
  | .setTurntableSpeeds sx sy sz =>
      { s with turntableSpeedX := sx, turntableSpeedY := sy, turntableSpeedZ := sz }

/-- A state is reachable when some event sequence produces it from the
initial state. -/
def Reachable (s : ViewerState) : Prop :=
  ∃ ops : List Op, s = ops.foldl applyOp initialViewerState

/-- Structural facts every reachable state satisfies: path tracing is
only enabled with a live path tracer, and the sun light and model
container created by `init()` persist. -/
def CoreInvariant (s : ViewerState) : Prop :=
  (s.pathTracingEnabled = true → s.pathTracerPresent = true)
  ∧ s.sunLightPresent = true
  ∧ s.modelContainer.isSome = true

/-- A mutation entered interaction mode and armed a fresh settle timer
(cancelling any pending one). -/
def InteractsFresh (s s' : ViewerState) : Prop :=
  s'.isInteracting = true ∧ s'.interactionTimeout = some s'.timerId
  ∧ s.timerId < s'.timerId

/-- The render-mode coordinator's gating contract at a state: a
progressive sample is drawn only under
`pathTracingEnabled && !isInteracting` and every other frame is
rasterized; and while progressive mode is enabled, each content-changing
mutation — transform edit, light edit, environment edit, camera drag
(start cancels, end rearms) and an animation tick that changed the scene
— enters interaction mode with a freshly armed settle timer. -/
def coordinatorSpec (s : ViewerState) : Prop :=
  (∀ th : Bool, (render s th).2 = RenderPath.progressive →
    s.pathTracingEnabled = true ∧ s.isInteracting = false)
  ∧ (∀ th : Bool, ¬(s.pathTracingEnabled = true ∧ s.isInteracting = false) →
      (render s th).2 = RenderPath.rasterized)
  ∧ (s.pathTracingEnabled = true →
      (∀ a p r, InteractsFresh s (updateModelTransform s a p r))
      ∧ InteractsFresh s (updateSunLightPosition s)
      ∧ (∀ f, InteractsFresh s (updateHDRISettings s f))
      ∧ ((animStep s).2 = true → InteractsFresh s (animate s))
      ∧ ((orbitStartHandler s).isInteracting = true
         ∧ (orbitStartHandler s).interactionTimeout = none)
      ∧ ((orbitEndHandler s).interactionTimeout = some ((orbitEndHandler s).timerId)
         ∧ s.timerId < (orbitEndHandler s).timerId))

/-! ## Concrete states and buffers used in the closed statements -/

/-- The all-black (all-zero) analysis buffer. -/
def zeroBuffer : ℕ → ℚ := fun _ => 0

/-- The all-white analysis buffer (every channel 1). -/
def oneBuffer : ℕ → ℚ := fun _ => 1

/-- A model whose bounding box is non-degenerate. -/
noncomputable def testModel : Model :=
  { bboxCenter := (0, 0, 0), bboxSize := (1, 2, 3), position := (0, 0, 0),
    shadows := false }

/-- A model whose bounding box has zero extent on all axes. -/
noncomputable def zeroExtentModel : Model :=
  { bboxCenter := (0, 0, 0), bboxSize := (0, 0, 0), position := (0, 0, 0),
    shadows := false }

/-- A reachable-shaped state with a model loaded. -/
noncomputable def stateWithModel : ViewerState :=
  { initialViewerState with currentModel := some testModel }

/-- A state with a zero-extent model loaded. -/
noncomputable def stateWithZeroExtentModel : ViewerState :=
  { initialViewerState with currentModel := some zeroExtentModel }

/-- A state in which animation is already running. -/
noncomputable def stateAnimating : ViewerState :=
  { initialViewerState with animationEnabled := true,
                            rotationBeforeAnimation := some (0, 0, 0) }

/-- The live shading transform: the rotation the renderer applies to the
environment map, realized from the stored `scene.environmentRotation`
Euler angles. -/
noncomputable def liveShadingTransform (s : ViewerState) : Matrix (Fin 3) (Fin 3) ℝ :=
  eulerXYZMatrix s.envRotationEuler

/-- The live background transform, from `scene.backgroundRotation`. -/
noncomputable def liveBackgroundTransform (s : ViewerState) : Matrix (Fin 3) (Fin 3) ℝ :=
  eulerXYZMatrix s.bgRotationEuler

/-- The container `updateModelTransform` writes: a pure function of the
arguments alone (the rotation matrix is rebuilt from scratch as
`Y * X * Z`, never read back from the previous state). -/
noncomputable def transformedContainer (scale : ℝ) (position : ℝ × ℝ)
    (rotation : ℝ × ℝ × ℝ) : Container :=
  { scale := (.fin scale, .fin scale, .fin scale),
    position := (position.1, position.2, 0),
    rotation := eulerSetFromRotationMatrixXYZ
      (makeRotationY (rotation.2.1 * Real.pi / 180) *
       makeRotationX (rotation.1 * Real.pi / 180) *
       makeRotationZ (rotation.2.2 * Real.pi / 180)) }

/-- An operation preserves the structural core: the path-tracing flags,
the sun light and the model container existence. -/
def PreservesCore (f : ViewerState → ViewerState) : Prop :=
  ∀ s : ViewerState,
    (f s).pathTracingEnabled = s.pathTracingEnabled
    ∧ (f s).pathTracerPresent = s.pathTracerPresent
    ∧ (f s).sunLightPresent = s.sunLightPresent
    ∧ (f s).modelContainer.isSome = s.modelContainer.isSome

/-- An operation leaves the path-tracing flags and the settle-timer
counter unchanged (used to push `InteractsFresh` through the state
pipelines that precede the shared interaction block). -/
def PreservesTimer (f : ViewerState → ViewerState) : Prop :=
  ∀ s : ViewerState,
    (f s).pathTracingEnabled = s.pathTracingEnabled
    ∧ (f s).pathTracerPresent = s.pathTracerPresent
    ∧ (f s).timerId = s.timerId

/-! ## Helper lemmas: the brightest-pixel fold -/

theorem runMaxLum_nil (buf : ℕ → ℚ) (m : ℚ) : runMaxLum buf [] m = m := rfl

theorem runMaxLum_cons (buf : ℕ → ℚ) (e : ℕ × ℕ) (t : List (ℕ × ℕ)) (m : ℚ) :
    runMaxLum buf (e :: t) m = runMaxLum buf t (max m (texLum buf e)) := rfl

theorem le_runMaxLum (buf : ℕ → ℚ) (l : List (ℕ × ℕ)) (m : ℚ) :
    m ≤ runMaxLum buf l m := by
  induction l generalizing m with
  | nil => exact le_refl m
  | cons e t ih =>
    rw [runMaxLum_cons]
    exact le_trans (le_max_left _ _) (ih _)

theorem texLum_le_runMaxLum (buf : ℕ → ℚ) (l : List (ℕ × ℕ)) (m : ℚ)
    (e : ℕ × ℕ) (he : e ∈ l) : texLum buf e ≤ runMaxLum buf l m := by
  induction l generalizing m with
  | nil => cases he
  | cons a t ih =>
    rw [runMaxLum_cons]
    rcases List.mem_cons.mp he with h | h
    · subst h
      exact le_trans (le_max_right _ _) (le_runMaxLum _ _ _)
    · exact ih _ h

theorem runMaxLum_le (buf : ℕ → ℚ) (l : List (ℕ × ℕ)) (m c : ℚ)
    (hm : m ≤ c) (h : ∀ e ∈ l, texLum buf e ≤ c) : runMaxLum buf l m ≤ c := by
  induction l generalizing m with
  | nil => exact hm
  | cons a t ih =>
    rw [runMaxLum_cons]
    exact ih _ (max_le hm (h a (List.mem_cons_self a t)))
      (fun e he => h e (List.mem_cons_of_mem _ he))

theorem brightStep_fst (buf : ℕ → ℚ) (acc : ℚ × ℚ × ℚ) (e : ℕ × ℕ) :
    (brightStep buf acc e).1 = max acc.1 (texLum buf e) := by
  unfold brightStep
  by_cases h : acc.1 < texLum buf e
  · rw [if_pos h]
    exact (max_eq_right h.le).symm
  · rw [if_neg h]
    exact (max_eq_left (not_lt.mp h)).symm

theorem brightFold_fst (buf : ℕ → ℚ) (l : List (ℕ × ℕ)) (acc : ℚ × ℚ × ℚ) :
    (l.foldl (brightStep buf) acc).1 = runMaxLum buf l acc.1 := by
  induction l generalizing acc with
  | nil => rfl
  | cons e t ih =>
    rw [List.foldl_cons, runMaxLum_cons, ih, brightStep_fst]

theorem brightFold_no_update (buf : ℕ → ℚ) (l : List (ℕ × ℕ)) (acc : ℚ × ℚ × ℚ)
    (h : ∀ e ∈ l, texLum buf e ≤ acc.1) :
    l.foldl (brightStep buf) acc = acc := by
  induction l with
  | nil => rfl
  | cons e t ih =>
    rw [List.foldl_cons]
    have hstep : brightStep buf acc e = acc := by
      unfold brightStep
      rw [if_neg (not_lt.mpr (h e (List.mem_cons_self e t)))]
    rw [hstep]
    exact ih fun e' he' => h e' (List.mem_cons_of_mem _ he')

theorem brightFold_first_max (buf : ℕ → ℚ) (l : List (ℕ × ℕ)) (acc : ℚ × ℚ × ℚ)
    (e0 : ℕ × ℕ) (hlt : acc.1 < runMaxLum buf l acc.1)
    (hfind : l.find? (fun e => decide (texLum buf e = runMaxLum buf l acc.1)) = some e0) :
    l.foldl (brightStep buf) acc = (runMaxLum buf l acc.1, texUV e0) := by
  induction l generalizing acc with
  | nil =>
    rw [runMaxLum_nil] at hlt
    exact absurd hlt (lt_irrefl _)
  | cons e t ih =>
    rw [List.foldl_cons]
    by_cases h : acc.1 < texLum buf e
    · have hstep : brightStep buf acc e = (texLum buf e, texUV e) := by
        unfold brightStep
        rw [if_pos h]
      rw [hstep]
      have hmax : max acc.1 (texLum buf e) = texLum buf e := max_eq_right h.le
      have hM : runMaxLum buf (e :: t) acc.1 = runMaxLum buf t (texLum buf e) := by
        rw [runMaxLum_cons, hmax]
      by_cases heq : texLum buf e = runMaxLum buf (e :: t) acc.1
      · have he0 : e0 = e := by
          rw [List.find?_cons, decide_eq_true heq] at hfind
          exact (Option.some_inj.mp hfind).symm
        subst he0
        have hbound : ∀ e' ∈ t, texLum buf e' ≤ texLum buf e0 := by
          intro e' he'
          rw [heq]
          exact texLum_le_runMaxLum buf _ _ e' (List.mem_cons_of_mem _ he')
        rw [brightFold_no_update buf t (texLum buf e0, texUV e0) hbound, ← heq]
      · have hle : texLum buf e ≤ runMaxLum buf t (texLum buf e) := le_runMaxLum _ _ _
        have hfind' : t.find?
            (fun e' => decide (texLum buf e' = runMaxLum buf (e :: t) acc.1)) = some e0 := by
          rw [List.find?_cons, decide_eq_false heq] at hfind
          exact hfind
        simp only [hM] at hfind' ⊢
        have hlt' : texLum buf e < runMaxLum buf t (texLum buf e) :=
          lt_of_le_of_ne hle (fun hc => heq (by rw [hM]; exact hc))
        exact ih (texLum buf e, texUV e) hlt' hfind'
    · have hstep : brightStep buf acc e = acc := by
        unfold brightStep
        rw [if_neg h]
      rw [hstep]
      have hmax : max acc.1 (texLum buf e) = acc.1 := max_eq_left (not_lt.mp h)
      have hM : runMaxLum buf (e :: t) acc.1 = runMaxLum buf t acc.1 := by
        rw [runMaxLum_cons, hmax]
      have hne : texLum buf e ≠ runMaxLum buf (e :: t) acc.1 :=
        ne_of_lt (lt_of_le_of_lt (not_lt.mp h) hlt)
      have hfind' : t.find?
          (fun e' => decide (texLum buf e' = runMaxLum buf (e :: t) acc.1)) = some e0 := by
        rw [List.find?_cons, decide_eq_false hne] at hfind
        exact hfind
      simp only [hM] at hfind' hlt ⊢
      exact ih acc hlt hfind'

/-! ## Helper lemmas: directions -/

theorem equirect_raw_norm (phi theta : ℝ) :
    (Real.cos theta * Real.sin phi) ^ 2 + (Real.sin theta) ^ 2 +
      (Real.cos theta * Real.cos phi) ^ 2 = 1 := by
  have h1 := Real.sin_sq_add_cos_sq phi
  have h2 := Real.sin_sq_add_cos_sq theta
  nlinarith [h1, h2]

theorem v3normalize_of_unit (p : ℝ × ℝ × ℝ)
    (h : p.1 ^ 2 + p.2.1 ^ 2 + p.2.2 ^ 2 = 1) : v3normalize p = p := by
  unfold v3normalize
  rw [h, Real.sqrt_one]
  simp

theorem equirectUVToDirection_eq_raw (u v : ℝ) :
    equirectUVToDirection u v =
      (Real.cos ((v - 1/2) * Real.pi) * Real.sin ((u - 1/2) * Real.pi * 2),
       Real.sin ((v - 1/2) * Real.pi),
       Real.cos ((v - 1/2) * Real.pi) * Real.cos ((u - 1/2) * Real.pi * 2)) := by
  unfold equirectUVToDirection
  exact v3normalize_of_unit _ (equirect_raw_norm _ _)

theorem equirect_center : equirectUVToDirection (1/2) (1/2) = (0, 0, 1) := by
  rw [equirectUVToDirection_eq_raw]
  norm_num [Real.cos_zero, Real.sin_zero]

theorem equirect_top_left : equirectUVToDirection 0 1 = (0, 1, 0) := by
  rw [equirectUVToDirection_eq_raw]
  have h1 : ((0:ℝ) - 1/2) * Real.pi * 2 = -Real.pi := by ring
  have h2 : ((1:ℝ) - 1/2) * Real.pi = Real.pi / 2 := by ring
  rw [h1, h2]
  simp [Real.cos_pi_div_two, Real.sin_pi_div_two]

theorem analyze_zeroBuffer_eq : analyzeHDRIBrightestPoint zeroBuffer = (0, 0, 1) := by
  have hb : findBrightestUV zeroBuffer = (0, 1/2, 1/2) := by
    unfold findBrightestUV
    exact brightFold_no_update _ _ _ (fun e _ => by
      simp [texLum, luminance, zeroBuffer])
  unfold analyzeHDRIBrightestPoint
  rw [hb]
  push_cast
  exact equirect_center

theorem scanList_eq_cons : ∃ t, scanList = (0, 0) :: t := by
  unfold scanList sampleHeight sampleWidth
  rw [show (256:ℕ) = 255 + 1 from rfl, List.range_succ_eq_map, List.flatMap_cons,
    show (512:ℕ) = 511 + 1 from rfl, List.range_succ_eq_map, List.map_cons,
    List.cons_append]
  exact ⟨_, rfl⟩

theorem zero_zero_mem_scanList : (0, 0) ∈ scanList := by
  obtain ⟨t, ht⟩ := scanList_eq_cons
  rw [ht]
  exact List.mem_cons_self _ _

theorem texLum_zeroBuffer (e : ℕ × ℕ) : texLum zeroBuffer e = 0 := by
  simp [texLum, luminance, zeroBuffer]

theorem maxLumOf_zeroBuffer : maxLumOf zeroBuffer = 0 := by
  refine le_antisymm ?_ (le_runMaxLum _ _ _)
  exact runMaxLum_le _ _ _ _ le_rfl (fun e _ => (texLum_zeroBuffer e).le)

theorem texUV_origin_real :
    (((texUV (0, 0)).1 : ℝ) = 0) ∧ (((texUV (0, 0)).2 : ℝ) = 1) := by
  constructor <;> norm_num [texUV, sampleWidth, sampleHeight]

/-! ## C3 -/

/-- C3: for every (u, v) in the unit square, `equirectUVToDirection`
returns exactly `(cos θ · sin φ, sin θ, cos θ · cos φ)` with
`φ = (u - 0.5)·2π` and `θ = (v - 0.5)·π`; this vector already has unit
norm (so the final `normalize` is the identity), and in particular
UV (0.75, 0.5) maps to the direction (1, 0, 0). -/
theorem equirectUVToDirection_spec (u v : ℝ)
    (hu : 0 ≤ u ∧ u ≤ 1) (hv : 0 ≤ v ∧ v ≤ 1) :
    equirectUVToDirection u v =
      (Real.cos ((v - 1/2) * Real.pi) * Real.sin ((u - 1/2) * (2 * Real.pi)),
       Real.sin ((v - 1/2) * Real.pi),
       Real.cos ((v - 1/2) * Real.pi) * Real.cos ((u - 1/2) * (2 * Real.pi)))
    ∧ ((equirectUVToDirection u v).1 ^ 2 + (equirectUVToDirection u v).2.1 ^ 2 +
        (equirectUVToDirection u v).2.2 ^ 2 = 1)
    ∧ equirectUVToDirection (3/4) (1/2) = (1, 0, 0) := by
  have hphi : (u - 1/2) * Real.pi * 2 = (u - 1/2) * (2 * Real.pi) := by ring
  refine ⟨?_, ?_, ?_⟩
  · rw [equirectUVToDirection_eq_raw, hphi]
  · rw [equirectUVToDirection_eq_raw]
    exact equirect_raw_norm _ _
  · rw [equirectUVToDirection_eq_raw]
    have h1 : ((3:ℝ)/4 - 1/2) * Real.pi * 2 = Real.pi / 2 := by ring
    have h2 : ((1:ℝ)/2 - 1/2) * Real.pi = 0 := by ring
    rw [h1, h2]
    simp [Real.cos_zero, Real.sin_zero, Real.sin_pi_div_two, Real.cos_pi_div_two]

/-- Witness for C3 at (u, v) = (0.75, 0.5). -/
theorem equirectUVToDirection_spec_witness :
    ((0:ℝ) ≤ 3/4 ∧ (3/4:ℝ) ≤ 1) ∧ ((0:ℝ) ≤ 1/2 ∧ (1/2:ℝ) ≤ 1)
    ∧ equirectUVToDirection (3/4) (1/2) = (1, 0, 0) :=
  ⟨⟨by norm_num, by norm_num⟩, ⟨by norm_num, by norm_num⟩,
    (equirectUVToDirection_spec (3/4) (1/2) ⟨by norm_num, by norm_num⟩
      ⟨by norm_num, by norm_num⟩).2.2⟩

/-! ## C7 -/

/-- C7 (amended): on an all-zero (all-black) panorama buffer the
brightest-pixel scan never updates its default candidate UV (0.5, 0.5),
so `analyzeHDRIBrightestPoint` returns the fixed panorama-center
direction (0, 0, 1) without failing; the top-down vector (0, 1, 0) is
only the constructor's initial `sunDirection` default, not this
function's fallback. -/
theorem analyzeHDRIBrightestPoint_allZero (buf : ℕ → ℚ) (h : ∀ i, buf i = 0) :
    analyzeHDRIBrightestPoint buf = (0, 0, 1) := by
  have hb : findBrightestUV buf = (0, 1/2, 1/2) := by
    unfold findBrightestUV
    exact brightFold_no_update _ _ _ (fun e _ => by simp [texLum, luminance, h])
  unfold analyzeHDRIBrightestPoint
  rw [hb]
  push_cast
  exact equirect_center

/-- Witness for C7 at the all-zero buffer. -/
theorem analyzeHDRIBrightestPoint_allZero_witness :
    analyzeHDRIBrightestPoint zeroBuffer = (0, 0, 1) :=
  analyzeHDRIBrightestPoint_allZero zeroBuffer (fun _ => rfl)

/-- C7 counterexample: on the all-zero buffer the code returns the
center direction (0, 0, 1), which differs from the claimed top-down
default (0, 1, 0). -/
theorem analyzeHDRIBrightestPoint_allZero_cex :
    analyzeHDRIBrightestPoint zeroBuffer = (0, 0, 1)
    ∧ ¬ analyzeHDRIBrightestPoint zeroBuffer = ((0 : ℝ), 1, 0) := by
  refine ⟨analyze_zeroBuffer_eq, ?_⟩
  rw [analyze_zeroBuffer_eq]
  intro hc
  have h2 := congrArg (fun p : ℝ × ℝ × ℝ => p.2.1) hc
  norm_num at h2

/-! ## C2 -/

/-- C2 (amended): `analyzeHDRIBrightestPoint` works on the fixed 512x256
analysis resolution with Rec.709 luminance, and — provided the maximal
luminance is strictly positive — returns the direction of the first
texel in the row-major scan order (rows top to bottom, then left to
right) whose luminance attains the maximum, which breaks ties by that
scan order; when no texel has strictly positive luminance the default
center UV (0.5, 0.5) is kept instead. -/
theorem analyzeHDRIBrightestPoint_first_max (buf : ℕ → ℚ) (e0 : ℕ × ℕ)
    (hpos : 0 < maxLumOf buf)
    (hfind : scanList.find?
      (fun e => decide (texLum buf e = maxLumOf buf)) = some e0) :
    findBrightestUV buf = (maxLumOf buf, texUV e0)
    ∧ analyzeHDRIBrightestPoint buf =
        equirectUVToDirection ((texUV e0).1 : ℝ) ((texUV e0).2 : ℝ) := by
  have h1 : findBrightestUV buf = (maxLumOf buf, texUV e0) := by
    unfold findBrightestUV
    exact brightFold_first_max buf scanList (0, 1/2, 1/2) e0 hpos hfind
  refine ⟨h1, ?_⟩
  unfold analyzeHDRIBrightestPoint
  rw [h1]

/-- Witness for C2: on the constant-1 buffer the maximal luminance is 1
(strictly positive) and is attained first at texel (0, 0). -/
theorem analyzeHDRIBrightestPoint_first_max_witness :
    0 < maxLumOf oneBuffer
    ∧ scanList.find?
        (fun e => decide (texLum oneBuffer e = maxLumOf oneBuffer)) = some (0, 0)
    ∧ findBrightestUV oneBuffer = (maxLumOf oneBuffer, texUV (0, 0)) := by
  have hlum : ∀ e : ℕ × ℕ, texLum oneBuffer e = 1 := fun e => by
    norm_num [texLum, luminance, oneBuffer]
  have hmax : maxLumOf oneBuffer = 1 := by
    refine le_antisymm ?_ ?_
    · exact runMaxLum_le _ _ _ _ (by norm_num) (fun e _ => (hlum e).le)
    · calc (1:ℚ) = texLum oneBuffer (0, 0) := (hlum _).symm
        _ ≤ _ := texLum_le_runMaxLum _ _ _ _ zero_zero_mem_scanList
  have hpos : 0 < maxLumOf oneBuffer := by rw [hmax]; norm_num
  obtain ⟨t, ht⟩ := scanList_eq_cons
  have hfind : scanList.find?
      (fun e => decide (texLum oneBuffer e = maxLumOf oneBuffer)) = some (0, 0) := by
    rw [ht]
    apply List.find?_cons_of_pos
    show decide (texLum oneBuffer (0, 0) = maxLumOf oneBuffer) = true
    exact decide_eq_true (by rw [hlum, hmax])
  exact ⟨hpos, hfind,
    (analyzeHDRIBrightestPoint_first_max oneBuffer (0, 0) hpos hfind).1⟩

/-- C2 counterexample: on the all-zero buffer every texel ties for the
maximal luminance 0, the first texel in scan order is (0, 0) — whose UV
is (0, 1) and whose direction is (0, 1, 0) — but the code keeps the
default center UV and returns (0, 0, 1): the claimed
first-in-scan-order tie-break fails for this buffer. -/
theorem analyzeHDRIBrightestPoint_first_max_cex :
    texLum zeroBuffer (0, 0) = maxLumOf zeroBuffer
    ∧ scanList.head? = some (0, 0)
    ∧ equirectUVToDirection ((texUV (0, 0)).1 : ℝ) ((texUV (0, 0)).2 : ℝ) = (0, 1, 0)
    ∧ analyzeHDRIBrightestPoint zeroBuffer = (0, 0, 1)
    ∧ ¬ ((0 : ℝ), (0 : ℝ), (1 : ℝ)) = ((0 : ℝ), 1, 0) := by
  obtain ⟨t, ht⟩ := scanList_eq_cons
  refine ⟨by rw [texLum_zeroBuffer, maxLumOf_zeroBuffer], by rw [ht]; rfl, ?_, ?_, ?_⟩
  · rw [texUV_origin_real.1, texUV_origin_real.2]
    exact equirect_top_left
  · exact analyze_zeroBuffer_eq
  · intro hc
    have h2 := congrArg (fun p : ℝ × ℝ × ℝ => p.2.1) hc
    norm_num at h2

/-! ## Helper lemmas: `updateHDRISettings` -/

theorem updateHDRISettings_envEuler (s : ViewerState) (force : Bool) :
    (updateHDRISettings s force).envRotationEuler
        = (0, s.hdriRotation * Real.pi / 180, 0)
    ∧ (updateHDRISettings s force).bgRotationEuler
        = (0, s.hdriRotation * Real.pi / 180, 0) := by
  rcases ho : s.originalHDRITexture with _ | t0 <;> cases force <;>
    simp [updateHDRISettings, applyMaterialsEnvIntensity, applyBackgroundToneMapping,
      regenerateIfForced, applyHDRIRotationEulers, generateRotatedEnvironment,
      triggerInteraction, ho] <;>
    (try split_ifs) <;> simp_all

/-! ## C4 -/

/-- C4: `updateHDRISettings` always immediately writes the live
environment and background rotation transforms (Euler (0, rad, 0), rad
the stored rotation in radians about Y), and rebuilds the derived PMREM
environment map from the stored source panorama if and only if
`forceRegenerate` is true and a source panorama is loaded. -/
theorem updateHDRISettings_rotation_and_regen (s : ViewerState) (force : Bool) :
    (updateHDRISettings s force).envRotationEuler
        = (0, s.hdriRotation * Real.pi / 180, 0)
    ∧ (updateHDRISettings s force).bgRotationEuler
        = (0, s.hdriRotation * Real.pi / 180, 0)
    ∧ ((updateHDRISettings s force).pmremCount ≠ s.pmremCount
        ↔ (force = true ∧ s.originalHDRITexture.isSome = true))
    ∧ (∀ t, s.originalHDRITexture = some t → force = true →
        (updateHDRISettings s force).currentHDRI = some (s.pmremCount + 1, t)
        ∧ (updateHDRISettings s force).pmremCount = s.pmremCount + 1)
    ∧ (¬(force = true ∧ s.originalHDRITexture.isSome = true) →
        (updateHDRISettings s force).currentHDRI = s.currentHDRI
        ∧ (updateHDRISettings s force).pmremCount = s.pmremCount) := by
  refine ⟨(updateHDRISettings_envEuler s force).1,
    (updateHDRISettings_envEuler s force).2, ?_, ?_, ?_⟩ <;>
    rcases ho : s.originalHDRITexture with _ | t0 <;> cases force <;>
    simp [updateHDRISettings, applyMaterialsEnvIntensity, applyBackgroundToneMapping,
      regenerateIfForced, applyHDRIRotationEulers, generateRotatedEnvironment,
      triggerInteraction, ho] <;>
    (try split_ifs) <;> simp_all

/-! ## C8 -/

/-- C8: two rotation angles that agree modulo 360 degrees produce the
identical live shading transform (and background transform): the stored
Euler rotations differ by a multiple of 2π, which realizes the same
rotation matrix. -/
theorem setEnvironmentRotation_mod360 (s : ViewerState) (d1 d2 : ℝ) (k : ℤ)
    (h : d1 - d2 = 360 * (k : ℝ)) :
    liveShadingTransform (setEnvironmentRotation s d1)
      = liveShadingTransform (setEnvironmentRotation s d2)
    ∧ liveBackgroundTransform (setEnvironmentRotation s d1)
      = liveBackgroundTransform (setEnvironmentRotation s d2) := by
  have h1 : d1 * Real.pi / 180 = d2 * Real.pi / 180 + (k : ℝ) * (2 * Real.pi) := by
    have hd : d1 = d2 + 360 * (k : ℝ) := by linarith
    rw [hd]
    ring
  have hcos : Real.cos (d1 * Real.pi / 180) = Real.cos (d2 * Real.pi / 180) := by
    rw [h1, Real.cos_add_int_mul_two_pi]
  have hsin : Real.sin (d1 * Real.pi / 180) = Real.sin (d2 * Real.pi / 180) := by
    rw [h1, Real.sin_add_int_mul_two_pi]
  have hY : makeRotationY (d1 * Real.pi / 180) = makeRotationY (d2 * Real.pi / 180) := by
    unfold makeRotationY
    rw [hcos, hsin]
  have he1 := updateHDRISettings_envEuler { s with hdriRotation := d1 } false
  have he2 := updateHDRISettings_envEuler { s with hdriRotation := d2 } false
  constructor
  · unfold liveShadingTransform setEnvironmentRotation
    rw [he1.1, he2.1]
    unfold eulerXYZMatrix
    simpa using congrArg (fun M => makeRotationX 0 * M * makeRotationZ 0) hY
  · unfold liveBackgroundTransform setEnvironmentRotation
    rw [he1.2, he2.2]
    unfold eulerXYZMatrix
    simpa using congrArg (fun M => makeRotationX 0 * M * makeRotationZ 0) hY

/-- Witness for C8 at angles 370 and 10 (k = 1). -/
theorem setEnvironmentRotation_mod360_witness :
    ((370:ℝ) - 10 = 360 * ((1:ℤ) : ℝ))
    ∧ liveShadingTransform (setEnvironmentRotation initialViewerState 370)
        = liveShadingTransform (setEnvironmentRotation initialViewerState 10) :=
  ⟨by norm_num,
    (setEnvironmentRotation_mod360 initialViewerState 370 10 1 (by norm_num)).1⟩

/-! ## C5 -/

/-- C5: enabling animation when it is already enabled is a no-op (the
snapshot is not retaken and the state is unchanged); enabling from the
disabled state snapshots the current container rotation; and an
enable-then-disable round trip with zero animation ticks in between
restores the container — rotation included — exactly. -/
theorem setAnimationEnabled_roundtrip (s : ViewerState) (c : Container) :
    (s.animationEnabled = true → setAnimationEnabled s true = s)
    ∧ (s.animationEnabled = false → s.modelContainer = some c →
        (setAnimationEnabled s true).rotationBeforeAnimation = some c.rotation
        ∧ (setAnimationEnabled (setAnimationEnabled s true) false).modelContainer
            = some c) := by
  constructor
  · intro h
    cases s with
    | mk => simp_all [setAnimationEnabled]
  · intro h hc
    cases c with
    | mk => cases s with
      | mk => simp_all [setAnimationEnabled]

/-- Witness for C5: an already-animating state is untouched by a second
enable, and the initial state survives an enable/disable round trip. -/
theorem setAnimationEnabled_roundtrip_witness :
    setAnimationEnabled stateAnimating true = stateAnimating
    ∧ (setAnimationEnabled (setAnimationEnabled initialViewerState true)
        false).modelContainer = some defaultContainer :=
  ⟨(setAnimationEnabled_roundtrip stateAnimating defaultContainer).1 rfl,
   ((setAnimationEnabled_roundtrip initialViewerState defaultContainer).2 rfl rfl).2⟩

/-! ## C6 -/

theorem updateModelTransform_container (s : ViewerState) (a : ℝ) (p : ℝ × ℝ)
    (r : ℝ × ℝ × ℝ) (h : s.modelContainer.isSome = true) :
    (updateModelTransform s a p r).modelContainer
      = some (transformedContainer a p r) := by
  unfold updateModelTransform triggerInteraction transformedContainer
  rw [if_pos h]
  dsimp only
  split_ifs <;> rfl

/-- C6: `updateModelTransform` is idempotent — applying the same
(scale, position, rotationXYZ) N ≥ 1 times yields exactly the container
one application yields, because the new container (its rotation matrix
rebuilt from scratch as Y·X·Z) is a pure function of the arguments and
never reads the previous container. -/
theorem updateModelTransform_idempotent (s : ViewerState) (a : ℝ) (p : ℝ × ℝ)
    (r : ℝ × ℝ × ℝ) (n : ℕ) (hs : s.modelContainer.isSome = true) (hn : 1 ≤ n) :
    ((fun st => updateModelTransform st a p r)^[n] s).modelContainer
      = (updateModelTransform s a p r).modelContainer := by
  obtain ⟨m, rfl⟩ : ∃ m, n = m + 1 := ⟨n - 1, (Nat.succ_pred_eq_of_pos hn).symm⟩
  induction m with
  | zero => rw [Function.iterate_one]
  | succ k ih =>
    have h1 : ((fun st => updateModelTransform st a p r)^[k+1] s).modelContainer
        = some (transformedContainer a p r) := by
      rw [ih (by norm_num), updateModelTransform_container s a p r hs]
    rw [Function.iterate_succ_apply']
    rw [updateModelTransform_container _ a p r (by rw [h1]; rfl),
        updateModelTransform_container s a p r hs]

/-- Witness for C6 at n = 2 on the initial state. -/
theorem updateModelTransform_idempotent_witness :
    initialViewerState.modelContainer.isSome = true ∧ 1 ≤ 2
    ∧ ((fun st => updateModelTransform st 1 (0, 0) (0, 0, 0))^[2]
        initialViewerState).modelContainer
      = (updateModelTransform initialViewerState 1 (0, 0) (0, 0, 0)).modelContainer :=
  ⟨rfl, by norm_num,
    updateModelTransform_idempotent initialViewerState 1 (0, 0) (0, 0, 0) 2 rfl
      (by norm_num)⟩

/-! ## C9 -/

/-- C9 (amended): a failing panorama load leaves the entire state
untouched (the RGBE error callback only logs); but `loadModel` runs
`clearModel()` before dispatching to a loader, so after a failing (or
unsupported) mesh load the state is exactly `clearModel` of the old one:
the previous model is already removed and disposed and `currentModel` is
empty, while everything else — environment included — is unchanged. -/
theorem load_failure_paths (s : ViewerState) (tex : ℕ) (kind : FileKind) :
    loadHDRI s tex false = s
    ∧ loadModel s kind none = clearModel s
    ∧ (loadModel s kind none).currentModel = none := by
  refine ⟨by simp [loadHDRI], ?_, ?_⟩
  · unfold loadModel
    dsimp only
    split_ifs <;> simp [Option.elim]
  · unfold loadModel clearModel
    dsimp only
    split_ifs <;> simp_all [Option.elim]

/-- C9 counterexample: with a model loaded, a failing GLB load leaves
`currentModel = none` and the old model disposed — `loadModel` cleared
the previous model before the fetch/decode was attempted, so prior state
is not left untouched on the error path. -/
theorem loadModel_failure_cex :
    stateWithModel.currentModel = some testModel
    ∧ (loadModel stateWithModel FileKind.glb none).currentModel = none
    ∧ (loadModel stateWithModel FileKind.glb none).disposedModels
        = stateWithModel.disposedModels + 1 := by
  refine ⟨rfl, ?_, ?_⟩ <;>
    simp [loadModel, clearModel, stateWithModel, Option.elim]

/-! ## C10 -/

/-- C10 (amended): for every loaded model whose bounding box has zero
extent on all axes, `autoScaleModel` performs the division anyway: the
JS quotient `targetSize / 0 = 2 / 0` is `+Infinity` — not a safe default
and not finite — and it is written into the container scale; the
operation returns normally (JS division never raises), so nothing is
skipped and no divide-by-zero guard exists. -/
theorem autoScaleModel_zero_extent (s : ViewerState) (m : Model) (c : Container)
    (hm : s.currentModel = some m) (hsz : m.bboxSize = (0, 0, 0))
    (hc : s.modelContainer = some c) :
    autoScaleModel s
      = { s with modelContainer := some ({ c with scale := (JsNum.inf, JsNum.inf, JsNum.inf) }) } := by
  unfold autoScaleModel
  simp only [hm, hc, Option.elim]
  rw [hsz]
  norm_num [jsDiv, targetSize]

/-- Witness for C10 at a concrete zero-extent model. -/
theorem autoScaleModel_zero_extent_witness :
    stateWithZeroExtentModel.currentModel = some zeroExtentModel
    ∧ zeroExtentModel.bboxSize = (0, 0, 0)
    ∧ stateWithZeroExtentModel.modelContainer = some defaultContainer
    ∧ autoScaleModel stateWithZeroExtentModel
        = { stateWithZeroExtentModel with modelContainer := some ({ defaultContainer with scale := (JsNum.inf, JsNum.inf, JsNum.inf) }) } :=
  ⟨rfl, rfl, rfl,
    autoScaleModel_zero_extent stateWithZeroExtentModel zeroExtentModel
      defaultContainer rfl rfl rfl⟩

/-- C10 counterexample: on the concrete zero-extent model the claimed
"skip the divide and apply a safe default scale" is false — the
container scale becomes the infinite JS quotient. -/
theorem autoScaleModel_zero_extent_scale_cex :
    (autoScaleModel stateWithZeroExtentModel).modelContainer
      = some ({ defaultContainer with scale := (JsNum.inf, JsNum.inf, JsNum.inf) })
    ∧ ∀ q : ℝ, JsNum.inf ≠ JsNum.fin q := by
  constructor
  · unfold autoScaleModel stateWithZeroExtentModel zeroExtentModel
    norm_num [Option.elim, jsDiv, targetSize, initialViewerState]
  · intro q hq
    cases hq

/-! ## Helper lemmas: core preservation (for the reachability invariant) -/

theorem preserves_comp (f g : ViewerState → ViewerState)
    (hf : PreservesCore f) (hg : PreservesCore g) :
    PreservesCore (fun s => g (f s)) := by
  intro s
  obtain ⟨a1, a2, a3, a4⟩ := hf s
  obtain ⟨b1, b2, b3, b4⟩ := hg (f s)
  exact ⟨b1.trans a1, b2.trans a2, b3.trans a3, b4.trans a4⟩

theorem preserves_triggerInteraction : PreservesCore triggerInteraction := by
  intro s
  unfold triggerInteraction
  split_ifs <;> simp

theorem preserves_render (th : Bool) : PreservesCore (fun s => (render s th).1) := by
  intro s
  simp only [render, apply_ite]
  split_ifs <;> simp

theorem preserves_orbitStartHandler : PreservesCore orbitStartHandler := by
  intro s
  unfold orbitStartHandler
  split_ifs <;> simp

theorem preserves_orbitEndHandler : PreservesCore orbitEndHandler := by
  intro s
  unfold orbitEndHandler
  split_ifs <;> simp

theorem preserves_settleTimerFire : PreservesCore settleTimerFire := by
  intro s
  unfold settleTimerFire
  split_ifs <;> simp

theorem disablePathTracing_invariant (s : ViewerState) (h : CoreInvariant s) :
    CoreInvariant (disablePathTracing s) := by
  obtain ⟨h1, h2, h3⟩ := h
  unfold CoreInvariant
  refine ⟨fun hx => ?_, h2, h3⟩
  simp [disablePathTracing] at hx

theorem preserves_updateModelTransform (a : ℝ) (p : ℝ × ℝ) (r : ℝ × ℝ × ℝ) :
    PreservesCore (fun s => updateModelTransform s a p r) := by
  intro s
  unfold updateModelTransform triggerInteraction
  dsimp only
  split_ifs <;> simp_all

theorem preserves_updateSunLightPosition : PreservesCore updateSunLightPosition := by
  intro s
  unfold updateSunLightPosition triggerInteraction
  dsimp only
  split_ifs <;> simp_all

theorem preserves_generateRotatedEnvironment (t : ℕ) (rad : ℝ) :
    PreservesCore (fun s => generateRotatedEnvironment s t rad) := by
  intro s
  unfold generateRotatedEnvironment
  dsimp only
  split_ifs <;> simp_all

theorem preserves_applyHDRIRotationEulers : PreservesCore applyHDRIRotationEulers := by
  intro s
  exact ⟨rfl, rfl, rfl, rfl⟩

theorem preserves_regenerateIfForced (force : Bool) :
    PreservesCore (fun s => regenerateIfForced s force) := by
  intro s
  unfold regenerateIfForced
  cases force
  · refine ⟨?_, ?_, ?_, ?_⟩ <;> rfl
  · rcases ho : s.originalHDRITexture with _ | t0
    · simp only [ho]
      refine ⟨?_, ?_, ?_, ?_⟩ <;> rfl
    · simp only [ho]
      exact preserves_generateRotatedEnvironment t0 (s.hdriRotation * Real.pi / 180) s

theorem preserves_applyBackgroundToneMapping :
    PreservesCore applyBackgroundToneMapping := by
  intro s
  unfold applyBackgroundToneMapping
  split_ifs <;> refine ⟨?_, ?_, ?_, ?_⟩ <;> first | rfl | trivial

theorem preserves_applyMaterialsEnvIntensity :
    PreservesCore applyMaterialsEnvIntensity := by
  intro s
  exact ⟨rfl, rfl, rfl, rfl⟩

theorem preserves_updateHDRISettings (force : Bool) :
    PreservesCore (fun s => updateHDRISettings s force) := by
  have h := preserves_comp _ _
    (preserves_comp _ _
      (preserves_comp _ _ preserves_applyHDRIRotationEulers
        (preserves_regenerateIfForced force))
      preserves_applyBackgroundToneMapping)
    (preserves_comp _ _ preserves_applyMaterialsEnvIntensity
      preserves_triggerInteraction)
  intro s
  exact h s

theorem preserves_loadHDRI (t : ℕ) (ok : Bool) :
    PreservesCore (fun s => loadHDRI s t ok) := by
  intro s
  unfold loadHDRI generateRotatedEnvironment
  dsimp only
  split_ifs <;> simp_all

theorem preserves_setAnimationEnabled (b : Bool) :
    PreservesCore (fun s => setAnimationEnabled s b) := by
  intro s
  unfold setAnimationEnabled
  dsimp only
  rcases hmc : s.modelContainer with _ | c <;>
    rcases hrb : s.rotationBeforeAnimation with _ | r0 <;>
    simp only [hmc, hrb, Option.elim] <;> (try split_ifs) <;>
    first
    | exact ⟨rfl, rfl, rfl, rfl⟩
    | simp_all

theorem preserves_setAnimationMode (m : AnimMode) :
    PreservesCore (fun s => setAnimationMode s m) := by
  have hb : ∀ b : Bool, PreservesCore (fun s => setAnimationEnabled s b) :=
    preserves_setAnimationEnabled
  intro s
  unfold setAnimationMode
  dsimp only
  split_ifs with h1
  · obtain ⟨a1, a2, a3, a4⟩ := hb false s
    obtain ⟨b1, b2, b3, b4⟩ := hb true
      { setAnimationEnabled s false with animationMode := m, sineTime := 0 }
    exact ⟨b1.trans a1, b2.trans a2, b3.trans a3, b4.trans a4⟩
  · simp

theorem preserves_animStep : PreservesCore (fun s => (animStep s).1) := by
  intro s
  unfold animStep
  dsimp only
  rcases hmc : s.modelContainer with _ | c <;>
    rcases hrb : s.rotationBeforeAnimation with _ | r0 <;>
    simp only [hmc, hrb, Option.elim] <;> (try split_ifs) <;>
    first
    | exact ⟨rfl, rfl, rfl, rfl⟩
    | simp_all

theorem preserves_animate : PreservesCore animate := by
  intro s
  unfold animate
  dsimp only
  obtain ⟨a1, a2, a3, a4⟩ := preserves_animStep s
  obtain ⟨b1, b2, b3, b4⟩ := preserves_triggerInteraction (animStep s).1
  split_ifs
  · exact ⟨b1.trans a1, b2.trans a2, b3.trans a3, b4.trans a4⟩
  · exact ⟨a1, a2, a3, a4⟩

theorem preserves_clearModel : PreservesCore clearModel := by
  intro s
  unfold clearModel
  split_ifs <;> simp

theorem preserves_centerModel : PreservesCore centerModel := by
  intro s
  unfold centerModel
  rcases hm : s.currentModel with _ | m <;> simp [Option.elim]

theorem preserves_autoScaleModel : PreservesCore autoScaleModel := by
  intro s
  unfold autoScaleModel
  dsimp only
  rcases hm : s.currentModel with _ | m <;>
    rcases hc : s.modelContainer with _ | c <;> simp [Option.elim, hc]

theorem preserves_enableModelShadows : PreservesCore enableModelShadows := by
  intro s
  unfold enableModelShadows
  rcases hm : s.currentModel with _ | m <;> simp only [hm, Option.elim] <;>
    refine ⟨?_, ?_, ?_, ?_⟩ <;> first | rfl | trivial

theorem preserves_applyEnvironmentToModel : PreservesCore applyEnvironmentToModel := by
  intro s
  unfold applyEnvironmentToModel
  split_ifs <;> refine ⟨?_, ?_, ?_, ?_⟩ <;> first | rfl | trivial

theorem preserves_processLoadedModel : PreservesCore processLoadedModel := by
  have h := preserves_comp _ _
    (preserves_comp _ _ preserves_centerModel preserves_autoScaleModel)
    (preserves_comp _ _ preserves_enableModelShadows preserves_applyEnvironmentToModel)
  intro s
  unfold processLoadedModel
  split_ifs
  · exact h s
  · exact ⟨rfl, rfl, rfl, rfl⟩

theorem preserves_loadModel (kind : FileKind) (o : Option Model) :
    PreservesCore (fun s => loadModel s kind o) := by
  intro s
  unfold loadModel
  dsimp only
  obtain ⟨a1, a2, a3, a4⟩ := preserves_clearModel s
  split_ifs
  · exact ⟨a1, a2, a3, a4⟩
  · rcases o with _ | m
    · exact ⟨a1, a2, a3, a4⟩
    · simp only [Option.elim]
      obtain ⟨b1, b2, b3, b4⟩ := preserves_processLoadedModel
        { clearModel s with currentModel := some m }
      refine ⟨b1.trans ?_, b2.trans ?_, b3.trans ?_, b4.trans ?_⟩ <;> simp_all

/-! ## Helper lemmas: timer preservation and the interaction block -/

theorem preservesTimer_comp (f g : ViewerState → ViewerState)
    (hf : PreservesTimer f) (hg : PreservesTimer g) :
    PreservesTimer (fun s => g (f s)) := by
  intro s
  obtain ⟨a1, a2, a3⟩ := hf s
  obtain ⟨b1, b2, b3⟩ := hg (f s)
  exact ⟨b1.trans a1, b2.trans a2, b3.trans a3⟩

theorem preservesTimer_applyHDRIRotationEulers :
    PreservesTimer applyHDRIRotationEulers := by
  intro s
  exact ⟨rfl, rfl, rfl⟩

theorem preservesTimer_generateRotatedEnvironment (t : ℕ) (rad : ℝ) :
    PreservesTimer (fun s => generateRotatedEnvironment s t rad) := by
  intro s
  unfold generateRotatedEnvironment
  dsimp only
  split_ifs <;> refine ⟨?_, ?_, ?_⟩ <;> first | rfl | trivial

theorem preservesTimer_regenerateIfForced (force : Bool) :
    PreservesTimer (fun s => regenerateIfForced s force) := by
  intro s
  unfold regenerateIfForced
  cases force
  · refine ⟨?_, ?_, ?_⟩ <;> rfl
  · rcases ho : s.originalHDRITexture with _ | t0
    · simp only [ho]
      refine ⟨?_, ?_, ?_⟩ <;> rfl
    · simp only [ho]
      exact preservesTimer_generateRotatedEnvironment t0
        (s.hdriRotation * Real.pi / 180) s

theorem preservesTimer_applyBackgroundToneMapping :
    PreservesTimer applyBackgroundToneMapping := by
  intro s
  unfold applyBackgroundToneMapping
  split_ifs <;> refine ⟨?_, ?_, ?_⟩ <;> first | rfl | trivial

theorem preservesTimer_applyMaterialsEnvIntensity :
    PreservesTimer applyMaterialsEnvIntensity := by
  intro s
  exact ⟨rfl, rfl, rfl⟩

theorem preservesTimer_animStep : PreservesTimer (fun s => (animStep s).1) := by
  intro s
  unfold animStep
  dsimp only
  rcases hmc : s.modelContainer with _ | c <;>
    rcases hrb : s.rotationBeforeAnimation with _ | r0 <;>
    simp only [hmc, hrb, Option.elim] <;> (try split_ifs) <;>
    first
    | refine ⟨?_, ?_, ?_⟩ <;> first | rfl | trivial
    | simp_all

theorem triggerInteraction_interacts (s s1 : ViewerState)
    (hpe : s1.pathTracingEnabled = true) (hpp : s1.pathTracerPresent = true)
    (ht : s1.timerId = s.timerId) :
    InteractsFresh s (triggerInteraction s1) := by
  unfold triggerInteraction InteractsFresh
  split_ifs with hg
  · refine ⟨rfl, rfl, ?_⟩
    dsimp only
    rw [ht]
    exact Nat.lt_succ_self _
  · simp_all

theorem updateModelTransform_interacts (s : ViewerState) (a : ℝ) (p : ℝ × ℝ)
    (r : ℝ × ℝ × ℝ) (hpe : s.pathTracingEnabled = true)
    (hpp : s.pathTracerPresent = true) (hc : s.modelContainer.isSome = true) :
    InteractsFresh s (updateModelTransform s a p r) := by
  unfold updateModelTransform
  rw [if_pos hc]
  dsimp only
  exact triggerInteraction_interacts s _ hpe hpp rfl

theorem updateSunLightPosition_interacts (s : ViewerState)
    (hpe : s.pathTracingEnabled = true) (hpp : s.pathTracerPresent = true)
    (hsun : s.sunLightPresent = true) :
    InteractsFresh s (updateSunLightPosition s) := by
  unfold updateSunLightPosition
  rw [if_pos hsun]
  dsimp only
  exact triggerInteraction_interacts s _ hpe hpp rfl

theorem updateHDRISettings_interacts (s : ViewerState) (force : Bool)
    (hpe : s.pathTracingEnabled = true) (hpp : s.pathTracerPresent = true) :
    InteractsFresh s (updateHDRISettings s force) := by
  have hchain := preservesTimer_comp _ _
    (preservesTimer_comp _ _ preservesTimer_applyHDRIRotationEulers
      (preservesTimer_regenerateIfForced force))
    (preservesTimer_comp _ _ preservesTimer_applyBackgroundToneMapping
      preservesTimer_applyMaterialsEnvIntensity)
  obtain ⟨c1, c2, c3⟩ := hchain s
  unfold updateHDRISettings
  exact triggerInteraction_interacts s _ (c1.trans hpe) (c2.trans hpp) c3

theorem animate_interacts (s : ViewerState)
    (hpe : s.pathTracingEnabled = true) (hpp : s.pathTracerPresent = true)
    (hch : (animStep s).2 = true) :
    InteractsFresh s (animate s) := by
  obtain ⟨a1, a2, a3⟩ := preservesTimer_animStep s
  unfold animate
  dsimp only
  split_ifs with hg
  · exact triggerInteraction_interacts s _ (a1.trans hpe) (a2.trans hpp) a3
  · rw [a1, a2] at hg
    simp_all

theorem orbitStartHandler_interacts (s : ViewerState)
    (hpe : s.pathTracingEnabled = true) (hpp : s.pathTracerPresent = true) :
    (orbitStartHandler s).isInteracting = true
    ∧ (orbitStartHandler s).interactionTimeout = none := by
  unfold orbitStartHandler
  split_ifs with hg
  · exact ⟨rfl, rfl⟩
  · simp_all

theorem orbitEndHandler_arms (s : ViewerState)
    (hpe : s.pathTracingEnabled = true) (hpp : s.pathTracerPresent = true) :
    (orbitEndHandler s).interactionTimeout = some ((orbitEndHandler s).timerId)
    ∧ s.timerId < (orbitEndHandler s).timerId := by
  unfold orbitEndHandler
  split_ifs with hg
  · exact ⟨rfl, Nat.lt_succ_self _⟩
  · simp_all

/-! ## The reachability invariant -/

theorem invariant_of_preserves (f : ViewerState → ViewerState)
    (hf : PreservesCore f) (s : ViewerState) (h : CoreInvariant s) :
    CoreInvariant (f s) := by
  obtain ⟨p1, p2, p3, p4⟩ := hf s
  obtain ⟨h1, h2, h3⟩ := h
  refine ⟨fun hx => ?_, ?_, ?_⟩
  · rw [p2]
    exact h1 (p1 ▸ hx)
  · rw [p3]
    exact h2
  · rw [p4]
    exact h3

theorem enablePathTracing_invariant (s : ViewerState) (cap cr : Bool)
    (h : CoreInvariant s) : CoreInvariant (enablePathTracing s cap cr).1 := by
  obtain ⟨h1, h2, h3⟩ := h
  unfold enablePathTracing CoreInvariant
  dsimp only
  split_ifs <;> simp_all

theorem applyOp_invariant (s : ViewerState) (op : Op) (h : CoreInvariant s) :
    CoreInvariant (applyOp s op) := by
  cases op with
  | transformEdit a p r =>
    exact invariant_of_preserves _ (preserves_updateModelTransform a p r) s h
  | sunEdit => exact invariant_of_preserves _ preserves_updateSunLightPosition s h
  | envEdit f => exact invariant_of_preserves _ (preserves_updateHDRISettings f) s h
  | rotationSlider d =>
    exact invariant_of_preserves _ (preserves_updateHDRISettings false)
      { s with hdriRotation := d } ⟨h.1, h.2.1, h.2.2⟩
  | orbitStart => exact invariant_of_preserves _ preserves_orbitStartHandler s h
  | orbitEnd => exact invariant_of_preserves _ preserves_orbitEndHandler s h
  | animTick th =>
    exact invariant_of_preserves _ (preserves_render th) (animate s)
      (invariant_of_preserves _ preserves_animate s h)
  | animEnable b =>
    exact invariant_of_preserves _ (preserves_setAnimationEnabled b) s h
  | animModeSwitch m =>
    exact invariant_of_preserves _ (preserves_setAnimationMode m) s h
  | enablePT cap cr => exact enablePathTracing_invariant s cap cr h
  | disablePT => exact disablePathTracing_invariant s h
  | settleFire => exact invariant_of_preserves _ preserves_settleTimerFire s h
  | renderTick th => exact invariant_of_preserves _ (preserves_render th) s h
  | modelLoad k o => exact invariant_of_preserves _ (preserves_loadModel k o) s h
  | hdriLoad t ok => exact invariant_of_preserves _ (preserves_loadHDRI t ok) s h
  | setSunParams az el i so sh en => exact ⟨h.1, h.2.1, h.2.2⟩
  | setHDRIParams i r bg => exact ⟨h.1, h.2.1, h.2.2⟩
  | setTurntableSpeeds sx sy sz => exact ⟨h.1, h.2.1, h.2.2⟩

theorem foldl_invariant (ops : List Op) (s0 : ViewerState)
    (h : CoreInvariant s0) : CoreInvariant (ops.foldl applyOp s0) := by
  induction ops generalizing s0 with
  | nil => exact h
  | cons op t ih => exact ih _ (applyOp_invariant s0 op h)

theorem initial_invariant : CoreInvariant initialViewerState := by
  refine ⟨fun hx => ?_, rfl, rfl⟩
  simp [initialViewerState] at hx

theorem reachable_invariant (s : ViewerState) (h : Reachable s) :
    CoreInvariant s := by
  obtain ⟨ops, rfl⟩ := h
  exact foldl_invariant ops _ initial_invariant

/-! ## C1 -/

/-- C1: in every reachable state, the progressive renderer executes a
sample only when progressive mode is requested and the system is not
interacting, and every other frame is drawn by the rasterizer; moreover,
while progressive mode is enabled, each content-changing mutation —
transform edit, sun-light edit, environment edit, camera drag (the
`start` handler enters interaction and cancels the pending timer, the
`end` handler arms a fresh one) and a scene-changing animation tick —
sets `isInteracting` and cancels-and-rearms the settle timer. -/
theorem renderModeCoordinator_gating (s : ViewerState) (h : Reachable s) :
    coordinatorSpec s := by
  obtain ⟨hpt, hsun, hmc⟩ := reachable_invariant s h
  have h2 : ∀ th : Bool, ¬(s.pathTracingEnabled = true ∧ s.isInteracting = false) →
      (render s th).2 = RenderPath.rasterized := by
    intro th hn
    unfold render
    split_ifs with hg hth
    · rfl
    · simp only [Bool.and_eq_true, Bool.not_eq_true'] at hg
      exact absurd ⟨hg.1.1, hg.2⟩ hn
    · rfl
  unfold coordinatorSpec
  refine ⟨?_, h2, ?_⟩
  · intro th hpr
    by_contra hn
    rw [h2 th hn] at hpr
    exact RenderPath.noConfusion hpr
  · intro hen
    have hpp : s.pathTracerPresent = true := hpt hen
    exact ⟨fun a p r => updateModelTransform_interacts s a p r hen hpp hmc,
           updateSunLightPosition_interacts s hen hpp hsun,
           fun f => updateHDRISettings_interacts s f hen hpp,
           fun hch => animate_interacts s hen hpp hch,
           orbitStartHandler_interacts s hen hpp,
           orbitEndHandler_arms s hen hpp⟩

/-- Witness for C1 at the initial state, reachable by the empty event
sequence. -/
theorem renderModeCoordinator_gating_witness :
    Reachable initialViewerState ∧ coordinatorSpec initialViewerState :=
  ⟨⟨[], rfl⟩, renderModeCoordinator_gating initialViewerState ⟨[], rfl⟩⟩

end Viewer
